import Mathlib

/-!
Verification of the batch-request protocol engine (odata/batchcontext.py and
odata/changeset.py) against its natural-language specification.

The Python source is shallowly embedded: each Python function becomes a Lean
definition with the same structure; Python object mutation becomes explicit
state passing; Python exceptions become an `Except PyErr` result; Python
object identity (the `is` operator) is modelled by a numeric identity tag on
entities; Python stdlib collaborators (json.dumps, urllib.parse.quote,
socket.gethostname, the HTTP transport) are passed in as function parameters,
matching the specification's notion of external collaborators.
-/

set_option maxHeartbeats 1000000

namespace PyOData

/-! ## Generic helpers modelling Python list/string primitives -/

/-- Splits a list at every element satisfying `p`, dropping the separators.
This is the semantics of Python `str.split(sep)` for a single-element
separator; it is used by the (verification-side) decoder. -/
def listSplitP (p : α → Bool) : List α → List (List α)
  | [] => [[]]
  | x :: xs =>
    if p x then [] :: listSplitP p xs
    else
      match listSplitP p xs with
      | [] => [[x]]
      | h :: t => (x :: h) :: t

/-- Joins the chunks with the separator list interspersed: the semantics of
Python `sep.join(parts)` at the element-list level. -/
def joinSep (sep : List α) : List (List α) → List α
  | [] => []
  | [x] => x
  | x :: xs => x ++ sep ++ joinSep sep xs

/-- Python `sep.join(parts)` on strings. -/
def pyJoin (sep : String) (parts : List String) : String :=
  ⟨joinSep sep.data (parts.map (·.data))⟩

/-- Python `str(x)` for an optional string, rendering `None` as Python does
in percent-formatting. -/
def pyStrOpt : Option String → String
  | some s => s
  | none => "None"

/-- Python `s[n:]` string slicing for a nonnegative start index. -/
def strDrop (n : Nat) (s : String) : String := ⟨s.data.drop n⟩

/-- Python `s.startswith(pre)`, computed on the character lists so that it
reduces inside the kernel. -/
def strStartsWith (s pre : String) : Bool := pre.data.isPrefixOf s.data

/-- Python `s.endswith(suf)`, computed on the character lists. -/
def strEndsWith (s suf : String) : Bool := suf.data.isSuffixOf s.data

/-- Python dict membership `k in d` for an association-list model of a dict. -/
def dictMemB (k : String) (d : List (String × V)) : Bool := d.any (·.1 == k)

/-- Python `d.pop(k)`: removes the key `k` from the dict. -/
def dictPop (k : String) (d : List (String × V)) : List (String × V) :=
  d.filter (fun kv => !(kv.1 == k))

/-- Assigns one key in the dict, replacing in place or appending (Python
`d[k] = v`). -/
def dictSet (d : List (String × V)) (kv : String × V) : List (String × V) :=
  if d.any (·.1 == kv.1) then
    d.map (fun x => if x.1 == kv.1 then (x.1, kv.2) else x)
  else d ++ [kv]

/-- Python `d.update(upd)` for the association-list model of a dict. -/
def dictUpdate (d upd : List (String × V)) : List (String × V) :=
  upd.foldl dictSet d

theorem listSplitP_ne_nil (p : α → Bool) (l : List α) : listSplitP p l ≠ [] := by
  cases l with
  | nil => simp [listSplitP]
  | cons x xs =>
    simp only [listSplitP]
    split
    · simp
    · split
      · simp
      · simp

theorem listSplitP_append_sep (p : α → Bool) {s : α} (hs : p s = true)
    (a b : List α) :
    listSplitP p (a ++ s :: b) = listSplitP p a ++ listSplitP p b := by
  induction a with
  | nil => simp [listSplitP, hs]
  | cons x a2 ih =>
    by_cases hx : p x = true
    · simp [listSplitP, hx, ih]
    · have hx2 : p x = false := by
        cases h : p x
        · rfl
        · exact absurd h hx
      rcases hsp : listSplitP p a2 with _ | ⟨h2, t2⟩
      · exact absurd hsp (listSplitP_ne_nil p a2)
      · have key : listSplitP p (a2 ++ s :: b) = h2 :: (t2 ++ listSplitP p b) := by
          rw [ih, hsp]; rfl
        simp [listSplitP, hx2, key, hsp]

theorem listSplitP_no_sep (p : α → Bool) (l : List α)
    (h : ∀ x ∈ l, p x = false) :
    listSplitP p l = [l] := by
  induction l with
  | nil => rfl
  | cons x xs ih =>
    have hx : p x = false := h x (by simp)
    have ihs : listSplitP p xs = [xs] := ih (fun y hy => h y (by simp [hy]))
    simp [listSplitP, hx, ihs]

theorem joinSep_listSplitP (s : Char) (l : List Char) :
    joinSep [s] (listSplitP (fun c => c == s) l) = l := by
  induction l with
  | nil => rfl
  | cons c l ih =>
    by_cases hc : (c == s) = true
    · have hcs : c = s := by simpa using hc
      simp only [listSplitP, hc, if_true]
      rcases hsp : listSplitP (fun c => c == s) l with _ | ⟨h2, t2⟩
      · exact absurd hsp (listSplitP_ne_nil _ l)
      · rw [hsp] at ih
        subst hcs
        simp [joinSep, ih]
    · have hc2 : (c == s) = false := by
        cases h : c == s
        · rfl
        · exact absurd h hc
      simp only [listSplitP, hc2, Bool.false_eq_true, if_false]
      rcases hsp : listSplitP (fun c => c == s) l with _ | ⟨h2, t2⟩
      · exact absurd hsp (listSplitP_ne_nil _ l)
      · rw [hsp] at ih
        cases t2 with
        | nil => simpa [joinSep] using congrArg (c :: ·) ih
        | cons h3 t3 =>
          simp only [joinSep] at ih ⊢
          rw [← ih]
          simp

theorem listSplitP_joinSep (p : α → Bool) {s : α} (hs : p s = true)
    (xss : List (List α)) (hne : xss ≠ []) :
    listSplitP p (joinSep [s] xss) = (xss.map (listSplitP p)).flatten := by
  induction xss with
  | nil => exact absurd rfl hne
  | cons x xss ih =>
    cases xss with
    | nil => simp [joinSep]
    | cons y t =>
      have : joinSep [s] (x :: y :: t) = x ++ s :: joinSep [s] (y :: t) := by
        simp [joinSep]
      rw [this, listSplitP_append_sep p hs, ih (by simp)]
      simp

/-! ## Decimal rendering of naturals (Python `str(int)` / `'%s' % n`) -/

/-- Decimal digit list of `n`, most significant first, with a structural fuel
argument so the definition reduces by `decide`/`rfl`.  Models what Python
`'%s' % n` produces for a nonnegative integer. -/
def natToDigits (fuel n : Nat) : List Char :=
  match fuel with
  | 0 => []
  | fuel + 1 =>
    if n < 10 then [Nat.digitChar n]
    else natToDigits fuel (n / 10) ++ [Nat.digitChar (n % 10)]

/-- Python `str(n)` for a natural number. -/
def natRepr (n : Nat) : String := ⟨natToDigits (n + 1) n⟩

/-- Left inverse of the digit rendering, reading base-10 digits back. -/
def decDigits (l : List Char) : Nat :=
  l.foldl (fun a c => a * 10 + (c.toNat - 48)) 0

theorem digitChar_toNat_sub (n : Nat) (h : n < 10) :
    (Nat.digitChar n).toNat - 48 = n := by
  revert h
  revert n
  decide

theorem decDigits_snoc (l : List Char) (c : Char) :
    decDigits (l ++ [c]) = decDigits l * 10 + (c.toNat - 48) := by
  simp [decDigits, List.foldl_append]

theorem decDigits_go (fuel : Nat) :
    ∀ n, n < fuel → decDigits (natToDigits fuel n) = n := by
  induction fuel with
  | zero => intro n h; omega
  | succ fuel ih =>
    intro n h
    by_cases hn : n < 10
    · simp [natToDigits, hn, decDigits, digitChar_toNat_sub n hn]
    · have h10 : 10 ≤ n := by omega
      have hdiv : n / 10 < n := Nat.div_lt_self (by omega) (by omega)
      have hfuel : n / 10 < fuel := by omega
      simp only [natToDigits, hn, if_false, decDigits_snoc, ih (n / 10) hfuel,
        digitChar_toNat_sub (n % 10) (Nat.mod_lt n (by omega))]
      omega

theorem decDigits_natToDigits (n : Nat) :
    decDigits (natToDigits (n + 1) n) = n :=
  decDigits_go (n + 1) n (Nat.lt_succ_self n)

theorem natRepr_injective : Function.Injective natRepr := by
  intro a b h
  have hd : natToDigits (a + 1) a = natToDigits (b + 1) b :=
    congrArg String.data h
  have := decDigits_natToDigits a
  rw [hd, decDigits_natToDigits b] at this
  omega

/-- Content identifier string built by `ChangeSet.add_change`:
`'%s-%s' % (boundary, sequence)`. -/
def contentIdStr (b : String) (n : Nat) : String :=
  b ++ "-" ++ natRepr n

theorem string_data_append (a b : String) : (a ++ b).data = a.data ++ b.data := rfl

theorem contentIdStr_inj (b : String) {i j : Nat}
    (h : contentIdStr b i = contentIdStr b j) : i = j := by
  have hd : (b ++ "-" ++ natRepr i).data = (b ++ "-" ++ natRepr j).data :=
    congrArg String.data h
  rw [string_data_append, string_data_append, string_data_append,
    string_data_append, List.append_assoc, List.append_assoc] at hd
  have h2 := List.append_cancel_left hd
  have h3 := List.append_cancel_left h2
  apply natRepr_injective
  cases hni : natRepr i with
  | mk di =>
    cases hnj : natRepr j with
    | mk dj =>
      rw [hni, hnj] at h3
      simp only [] at h3
      exact congrArg String.mk h3

/-! ## Embedding of odata/changeset.py -/

/-- Method string constants of `class ChangeAction` in changeset.py. -/
def ChangeAction.CREATE : String := "POST"

def ChangeAction.UPDATE : String := "PATCH"

def ChangeAction.DELETE : String := "DELETE"

/-- `class Change`: one embedded CRUD request.  `data` is the JSON body the
Python code later passes to `json.dumps`; its type is left generic, matching
Python duck typing (the coordinator instantiates it with a string-keyed
dict).  `method` holds the `ChangeAction` string. -/
structure Change (B : Type) where
  contentId : Option String
  data : B
  method : String
  url : String
deriving DecidableEq

def Change.setContentId (c : Change B) (cid : String) : Change B :=
  { c with contentId := some cid }

/-- `Change.get_payload` line list.  Python builds `parts` (a list of lines,
with the dict-ordered per-operation headers first) and joins with a newline;
`json.dumps`, `urllib.parse.quote` and `socket.gethostname()` are stdlib
collaborators passed in as `dumps`, `quoteF` and `hostname`. -/
def Change.payloadParts (quoteF : String → String) (hostname : String)
    (dumps : B → String) (c : Change B) : List String :=
  ["Content-Type: application/http",
   "Content-Transfer-Encoding: binary",
   "Content-ID: " ++ pyStrOpt c.contentId,
   "",
   c.method ++ " " ++ quoteF c.url ++ " HTTP/1.1",
   "Host: " ++ hostname,
   "Content-Type: application/json;type=entry",
   "",
   dumps c.data]

def Change.getPayload (quoteF : String → String) (hostname : String)
    (dumps : B → String) (c : Change B) : String :=
  pyJoin "\n" (c.payloadParts quoteF hostname dumps)

/-- `class ActionChange`: an action invocation whose body is the keyword
parameters (`self.kwargs`). -/
structure ActionChange (B : Type) where
  contentId : Option String
  name : String
  kwargs : B
deriving DecidableEq

def ActionChange.payloadParts (hostname : String) (dumps : B → String)
    (a : ActionChange B) : List String :=
  ["Content-Type: application/http",
   "Content-Transfer-Encoding: binary",
   "Content-ID: " ++ pyStrOpt a.contentId,
   "",
   "POST /" ++ a.name ++ " HTTP/1.1",
   "Host: " ++ hostname,
   "Content-Type: application/json;type=entry",
   "",
   dumps a.kwargs]

/-- `class FunctionChange`: a function invocation.  Its constructor takes no
keyword parameters and its payload is a bodiless GET (no JSON body line at
all); `serviceUrl` models `function.__odata_service__.url`. -/
structure FunctionChange where
  contentId : Option String
  name : String
  serviceUrl : String
deriving DecidableEq

def FunctionChange.payloadParts (hostname : String)
    (f : FunctionChange) : List String :=
  ["Content-Type: application/http",
   "Content-Transfer-Encoding: binary",
   "Content-ID: " ++ pyStrOpt f.contentId,
   "",
   "GET " ++ (if strEndsWith f.serviceUrl "/" then f.serviceUrl
              else f.serviceUrl ++ "/") ++ f.name ++ " HTTP/1.1",
   "Host: " ++ hostname,
   ""]

/-- Closed tagged union of the duck-typed operation kinds a ChangeSet can
hold (Change, ActionChange, FunctionChange). -/
inductive Op (B : Type) where
  | change (c : Change B)
  | act (a : ActionChange B)
  | fn (f : FunctionChange)
deriving DecidableEq

def Op.setContentId : Op B → String → Op B
  | .change c, cid => .change (c.setContentId cid)
  | .act a, cid => .act { a with contentId := some cid }
  | .fn f, cid => .fn { f with contentId := some cid }

def Op.getPayload (quoteF : String → String) (hostname : String)
    (dumps : B → String) : Op B → String
  | .change c => c.getPayload quoteF hostname dumps
  | .act a => pyJoin "\n" (a.payloadParts hostname dumps)
  | .fn f => pyJoin "\n" (f.payloadParts hostname)

/-- Symbolic stand-in for the Python callback closures registered with
`add_change`.  The coordinator registers the `cb` closures defined inside
`_insert_new` / `_update_existing` (tagged with the entity identity they
close over), or a caller-supplied callback, or `None`. -/
inductive CallbackTag where
  | noCallback
  | insertCb (entityId : Nat)
  | updateCb (entityId : Nat) (forceRefresh : Bool)
  | userCb
deriving DecidableEq

/-- `class ChangeSet`: boundary token plus ordered operations and their
registered callbacks.  The random `changeset_<uuid>` boundary is an external
input, passed to the constructor. -/
structure ChangeSet (B : Type) where
  boundary : String
  changes : List (Op B)
  callbacks : List CallbackTag
deriving DecidableEq

/-- `ChangeSet.__init__` with the generated boundary as input. -/
def ChangeSet.new (boundary : String) : ChangeSet B :=
  { boundary := boundary, changes := [], callbacks := [] }

/-- `ChangeSet.add_change`: appends the change and its callback, then assigns
the content identifier `'%s-%s' % (boundary, len(self._changes))` (the length
measured after the append) and returns it. -/
def ChangeSet.addChange (cs : ChangeSet B) (op : Op B) (cb : CallbackTag) :
    ChangeSet B × String :=
  let cid := contentIdStr cs.boundary (cs.changes.length + 1)
  ({ cs with changes := cs.changes ++ [op.setContentId cid],
             callbacks := cs.callbacks ++ [cb] }, cid)

/-- `ChangeSet.get_payload` line list. -/
def ChangeSet.payloadParts (quoteF : String → String) (hostname : String)
    (dumps : B → String) (cs : ChangeSet B) : List String :=
  ["Content-Type: multipart/mixed;boundary=" ++ cs.boundary, ""]
    ++ (cs.changes.map (fun c =>
          ["--" ++ cs.boundary, c.getPayload quoteF hostname dumps])).flatten
    ++ ["--" ++ cs.boundary ++ "--"]

def ChangeSet.getPayload (quoteF : String → String) (hostname : String)
    (dumps : B → String) (cs : ChangeSet B) : String :=
  pyJoin "\n" (cs.payloadParts quoteF hostname dumps)

/-- Runs a sequence of `add_change` calls in order, collecting the returned
content identifiers. -/
def ChangeSet.addAll (cs : ChangeSet B) :
    List (Op B × CallbackTag) → ChangeSet B × List String
  | [] => (cs, [])
  | (op, cb) :: rest =>
    let r := cs.addChange op cb
    let r2 := r.1.addAll rest
    (r2.1, r.2 :: r2.2)

/-! ## Embedding of odata/batchcontext.py -/

/-- Python exceptions raised by the batch coordinator.  `exception` models a
bare `raise Exception(msg)` (the spec's SequenceError family), `valueError`
and `odataError` the corresponding raise sites, `indexError` a failing `[0]`
index on an empty list-comprehension result (the spec's ReferenceError), and
`typeError` a call that passes keyword arguments a constructor does not
accept.  `transportError` models a failure propagated out of the transport
collaborator. -/
inductive PyErr where
  | exception (msg : String)
  | valueError (msg : String)
  | indexError
  | typeError
  | odataError (msg : String)
  | transportError (msg : String)
deriving DecidableEq

/-- One navigation property record as used by `_insert_new`:
`x[1].name`, `x[1].navigated_property_type`, `x[1].foreign_key`. -/
structure NavProp where
  name : String
  navigatedPropertyType : String
  foreignKey : Option String
deriving DecidableEq

/-- The entity state object `entity.__odata__`.  Modelled from the spec:
this collaborator is out of scope of the core ("an entity state object that
can produce an insert payload, an update-diff payload, and can be told reset
dirty tracking and apply these field values"), so its observable record is
an explicit structure: `persisted`/`instance_url` flags, the dirty-field
set, the current field values, the payloads `data_for_insert()` /
`data_for_update()` would return, the `navigation_properties` list (pairs,
indexed `x[1]` by the source), and whether `es.connection` was assigned. -/
structure EntityState (V : Type) where
  persisted : Bool
  instanceUrl : Option String
  dirty : List String
  values : List (String × V)
  dataForInsert : List (String × V)
  dataForUpdate : List (String × V)
  navProps : List (String × NavProp)
  connectionSet : Bool
deriving DecidableEq

/-- Modelled from the spec: the collaborator method `reset()` ("reset dirty
tracking"). -/
def EntityState.reset (es : EntityState V) : EntityState V :=
  { es with dirty := [] }

/-- Modelled from the spec: the collaborator method `update(mapping)` ("apply
these field values"). -/
def EntityState.update (es : EntityState V) (d : List (String × V)) :
    EntityState V :=
  { es with values := dictUpdate es.values d }

/-- An entity instance.  `id` is the object identity used to model Python's
`is` comparison in the content-id map lookup; `schemaType` is
`__odata_schema__['type']`; `odataUrl` is what `__odata_url__()` returns. -/
structure Entity (V : Type) where
  id : Nat
  schemaType : String
  odataUrl : String
  st : EntityState V
deriving DecidableEq

/-- Modelled from the spec: `Context.is_entity_saved` lives in
odata/context.py, which is not part of the analysed core; the spec says
`queue_save` "routes to insert or update based on whether the entity already
carries a persisted identity". -/
def isEntitySaved (e : Entity V) : Bool := e.st.persisted

/-- `class BatchContext` mutable state: the batch boundary, the parts list
(only ChangeSets are ever appended), the currently open changeset
(`self._changeset`, which always aliases an element of `_parts`; modelled as
its index), the (entity, content-id) list, and `len(self._service.url)`
(used by the URL-slicing expressions). -/
structure BatchContext (V : Type) where
  boundary : String
  parts : List (ChangeSet (List (String × V)))
  changesetIdx : Option Nat
  contentIdToEntityMap : List (Nat × String)
  serviceUrlLen : Nat
deriving DecidableEq

/-- `BatchContext.reset`. -/
def BatchContext.reset (s : BatchContext V) : BatchContext V :=
  { s with parts := [], contentIdToEntityMap := [], changesetIdx := none }

def openChangesetFirstMsg : String :=
  "Call open_changeset before doing data modification requests"

def executeSeqMsg : String :=
  "Call close_changeset before executing the batch request"

/-- `BatchContext.open_changeset`; the fresh random changeset boundary is an
external input. -/
def BatchContext.openChangeset (s : BatchContext V) (csBoundary : String) :
    Except PyErr (BatchContext V) :=
  match s.changesetIdx with
  | some _ => .error (.exception
      "Close the current change set first before opening a new one. They cannot be nested.")
  | none => .ok { s with parts := s.parts ++ [ChangeSet.new csBoundary],
                         changesetIdx := some s.parts.length }

/-- `BatchContext.close_changeset`. -/
def BatchContext.closeChangeset (s : BatchContext V) :
    Except PyErr (BatchContext V) :=
  match s.changesetIdx with
  | none => .error (.exception "Open a change set first before closing one.")
  | some _ => .ok { s with changesetIdx := none }

/-- Shared tail of `_insert_new`: builds the CREATE Change, adds it to the
open changeset (the part the `self._changeset` reference aliases), records
the (entity, content-id) pair and returns the content id. -/
def BatchContext.finishInsert (s : BatchContext V) (i : Nat) (e : Entity V)
    (url : String) (insertData : List (String × V)) :
    Except PyErr (BatchContext V × String) :=
  match s.parts[i]? with
  | none => .error .indexError
  | some cs =>
    let r := cs.addChange
      (.change { contentId := none, data := insertData,
                 method := ChangeAction.CREATE, url := url })
      (.insertCb e.id)
    .ok ({ s with parts := s.parts.set i r.1,
                  contentIdToEntityMap :=
                    s.contentIdToEntityMap ++ [(e.id, r.2)] }, r.2)

/-- `BatchContext._insert_new`.  The dead `if url is None` guard of the
source is unreachable here (both branches produce a string) and is omitted.
The empty-list `[0]` lookups raise `IndexError`. -/
def BatchContext.insertNew (s : BatchContext V) (e : Entity V)
    (parentResource : Option (Entity V)) :
    Except PyErr (BatchContext V × String) :=
  match s.changesetIdx with
  | none => .error (.exception openChangesetFirstMsg)
  | some i =>
    let insertData := e.st.dataForInsert
    match parentResource with
    | none =>
      s.finishInsert i e (strDrop (s.serviceUrlLen - 1) e.odataUrl) insertData
    | some p =>
      let entityType := e.schemaType
      let parentEntityType := p.schemaType
      match p.st.navProps.filter
          (fun x => x.2.navigatedPropertyType == entityType) with
      | [] => .error .indexError
      | parentNavProp :: _ =>
        match s.contentIdToEntityMap.filter (fun x => x.1 == p.id) with
        | [] => .error .indexError
        | pc :: _ =>
          let url := "$" ++ pc.2 ++ "/" ++ parentNavProp.2.name
          let navProp := e.st.navProps.filter
            (fun x => x.2.navigatedPropertyType == parentEntityType)
          let insertData2 :=
            match navProp with
            | [] => insertData
            | n :: _ =>
              match n.2.foreignKey with
              | none => insertData
              | some fk =>
                if dictMemB fk insertData then dictPop fk insertData
                else insertData
          s.finishInsert i e url insertData2

/-- `BatchContext._update_existing`.  Note the source never returns the
content id: the no-op branch returns `None` and the queueing branch falls
off the end of the function, also returning `None`. -/
def BatchContext.updateExisting (s : BatchContext V) (e : Entity V)
    (forceRefresh : Bool) :
    Except PyErr (BatchContext V × Option String) :=
  match s.changesetIdx with
  | none => .error (.exception openChangesetFirstMsg)
  | some i =>
    match e.st.instanceUrl with
    | none => .error (.odataError
        "Cannot update Entity that does not belong to EntitySet")
    | some instanceUrl =>
      let patchData := e.st.dataForUpdate
      if (patchData.filter (fun kv => !(strStartsWith kv.1 "@"))).length = 0 then
        .ok (s, none)
      else
        let url := strDrop (s.serviceUrlLen - 1) instanceUrl
        match s.parts[i]? with
        | none => .error .indexError
        | some cs =>
          let r := cs.addChange
            (.change { contentId := none, data := patchData,
                       method := ChangeAction.UPDATE, url := url })
            (.updateCb e.id forceRefresh)
          .ok ({ s with parts := s.parts.set i r.1,
                        contentIdToEntityMap :=
                          s.contentIdToEntityMap ++ [(e.id, r.2)] }, none)

def parentResourceMsg : String :=
  "Cannot provide a parent_resource for a non-insert operation. This feature is only used to reference entities that are created in the same batch request."

/-- `BatchContext.save`: the persisted-entity `parent_resource` ValueError
check runs before any other check; only then does it dispatch to
`_update_existing` / `_insert_new`. -/
def BatchContext.save (s : BatchContext V) (e : Entity V) (forceRefresh : Bool)
    (parentResource : Option (Entity V)) :
    Except PyErr (BatchContext V × Option String) :=
  if isEntitySaved e then
    match parentResource with
    | some _ => .error (.valueError parentResourceMsg)
    | none => s.updateExisting e forceRefresh
  else
    (s.insertNew e parentResource).map (fun r => (r.1, some r.2))

/-- The argument of `BatchContext.call`: an `Action` or `Function` instance
(dispatched by `isinstance` in the source). -/
inductive Callable where
  | action (name : String)
  | function (name : String) (serviceUrl : String)
deriving DecidableEq

/-- `BatchContext.call`.  For an `Action` it queues an
`ActionChange(action, **parameters)`; for a `Function` the source calls
`FunctionChange(action_or_function, **parameters)`, but
`FunctionChange.__init__(self, function)` accepts no keyword parameters, so
any nonempty parameter set raises `TypeError` at queue time. -/
def BatchContext.call (s : BatchContext V) (c : Callable)
    (params : List (String × V)) (cb : CallbackTag) :
    Except PyErr (BatchContext V) :=
  match s.changesetIdx with
  | none => .error (.exception openChangesetFirstMsg)
  | some i =>
    match s.parts[i]? with
    | none => .error .indexError
    | some cs =>
      match c with
      | .action name =>
        let r := cs.addChange (.act { contentId := none, name := name,
                                      kwargs := params }) cb
        .ok { s with parts := s.parts.set i r.1 }
      | .function name serviceUrl =>
        match params with
        | [] =>
          let r := cs.addChange (.fn { contentId := none, name := name,
                                       serviceUrl := serviceUrl }) cb
          .ok { s with parts := s.parts.set i r.1 }
        | _ :: _ => .error .typeError

/-- `'\n'` to `'\r\n'` normalization applied by `_get_payload` before the
body is sent. -/
def crlfEncode (s : String) : String :=
  ⟨(s.data.map (fun c => if c == '\n' then ['\r', '\n'] else [c])).flatten⟩

/-- `BatchContext._get_payload`: outer multipart body. -/
def BatchContext.getPayload (quoteF : String → String) (hostname : String)
    (dumps : List (String × V) → String) (s : BatchContext V) : String :=
  crlfEncode (pyJoin "\n"
    (["--" ++ s.boundary]
      ++ s.parts.map (fun p => p.getPayload quoteF hostname dumps)
      ++ ["--" ++ s.boundary ++ "--"]))

/-- One parsed response entry `{id, status, atomicityGroup, body}` as
supplied by the transport. -/
structure RespEntry (V : Type) where
  id : String
  status : Nat
  atomicityGroup : String
  body : List (String × V)
deriving DecidableEq

/-- Keys carrying the reserved protocol-annotation marker: Python
`k.startswith('@odata.')`. -/
def isODataKey (k : String) : Bool := strStartsWith k "@odata."

/-- The annotation-stripping loop over `saved_data` in
`_apply_response_to_entities` (pops every `@odata.`-prefixed key). -/
def cleanSavedData (body : List (String × V)) : List (String × V) :=
  body.filter (fun kv => !(isODataKey kv.1))

/-- Generic 500 message used when no (or more than one) response entry
matches a queued content id. -/
def noResponseMsg : String :=
  "Server sent no error message. There might be errors in previous operations of the same batch."

/-- Error message for a matched non-2xx entry (first pass); the dive into
`body['error']['message']` is generic JSON plumbing passed in as
`getErrMsg`, with the source's fallback text applied here. -/
def httpErrMsgMatched (getErrMsg : List (String × V) → Option String)
    (r : RespEntry V) : String :=
  "HTTP " ++ natRepr r.status ++ " for changeset \x27" ++ r.atomicityGroup
    ++ "\x27 and content_id \x27" ++ r.id ++ "\x27 with error "
    ++ ((getErrMsg r.body).getD "Server sent no error message")

/-- Error message for an unmatched non-2xx entry (second pass). -/
def httpErrMsgLeftover (getErrMsg : List (String × V) → Option String)
    (r : RespEntry V) : String :=
  "HTTP " ++ natRepr r.status ++ " for content_id \x27" ++ r.id
    ++ "\x27 with error "
    ++ ((getErrMsg r.body).getD "Server sent no error message")

/-- The per-pair classification of the first-pass loop body: the
`(entity, status, error)` tuple appended to `response_map` for one snapshot
pair.  It depends only on the responses, never on entity state. -/
def pairEntry (responses : List (RespEntry V))
    (getErrMsg : List (String × V) → Option String) (pair : Nat × String) :
    Option Nat × Nat × Option String :=
  match responses.filter (fun x => x.id == pair.2) with
  | [r] =>
    if r.status < 200 ∨ 300 ≤ r.status then
      (some pair.1, r.status, some (httpErrMsgMatched getErrMsg r))
    else (some pair.1, r.status, none)
  | _ => (some pair.1, 500, some noResponseMsg)

/-- Whether the first-pass loop body appends the pair's content id to
`processed_content_ids` (it does exactly when the filter finds a single
match, before the status check). -/
def pairProcessed (responses : List (RespEntry V)) (pair : Nat × String) :
    Bool :=
  match responses.filter (fun x => x.id == pair.2) with
  | [_] => true
  | _ => false

/-- Output of the first-pass loop of `_apply_response_to_entities`. -/
structure LoopOut (V : Type) where
  store : Nat → EntityState V
  entities : List Nat
  responseMap : List (Option Nat × Nat × Option String)
  processed : List String

/-- First pass of `_apply_response_to_entities`: walks the snapshot
(entity, content-id) pairs in order; on a unique 2xx match it strips the
annotation keys from the body and applies `reset()` then `update(...)` to
the matched entity (this inline pair of calls is everything the source does
to the entity; the registered callbacks are never consulted). -/
def applyLoop (responses : List (RespEntry V))
    (getErrMsg : List (String × V) → Option String)
    (store : Nat → EntityState V) :
    List (Nat × String) → LoopOut V
  | [] => { store := store, entities := [], responseMap := [], processed := [] }
  | pair :: rest =>
    let store2 : Nat → EntityState V :=
      match responses.filter (fun x => x.id == pair.2) with
      | [r] =>
        if r.status < 200 ∨ 300 ≤ r.status then store
        else
          fun j => if j = pair.1 then
              ((store pair.1).reset).update (cleanSavedData r.body)
            else store j
      | _ => store
    let out := applyLoop responses getErrMsg store2 rest
    { store := out.store,
      entities := pair.1 :: out.entities,
      responseMap := pairEntry responses getErrMsg pair :: out.responseMap,
      processed := (if pairProcessed responses pair then [pair.2] else [])
        ++ out.processed }

/-- Output of `_apply_response_to_entities`. -/
structure ApplyOut (V : Type) where
  store : Nat → EntityState V
  entities : List Nat
  responseMap : List (Option Nat × Nat × Option String)

/-- `BatchContext._apply_response_to_entities`: first pass over the snapshot
pairs, then the second pass over response entries whose id was never
processed, classified by their own status with no entity attached. -/
def applyResponseToEntities (responses : List (RespEntry V))
    (getErrMsg : List (String × V) → Option String)
    (store : Nat → EntityState V) (m : List (Nat × String)) : ApplyOut V :=
  let out := applyLoop responses getErrMsg store m
  let leftovers := responses.filter (fun r => !(out.processed.contains r.id))
  let rmap2 := leftovers.map (fun r =>
    if r.status < 200 ∨ 300 ≤ r.status then
      ((none : Option Nat), r.status, some (httpErrMsgLeftover getErrMsg r))
    else ((none : Option Nat), r.status, none))
  { store := out.store, entities := out.entities,
    responseMap := out.responseMap ++ rmap2 }

/-- The aggregated result dict returned by `execute`. -/
structure ExecResult (V : Type) where
  entities : List Nat
  responses : List (Option Nat × Nat × Option String)
  responseRaw : List (RespEntry V)
  idToEntity : List (Nat × String)

/-- `BatchContext.execute`: refuses while a changeset is open; otherwise
snapshots the map, serializes the payload, unconditionally resets the queue
state, sends via the transport collaborator (whose failure propagates), and
correlates the response against the snapshot.  The returned `BatchContext`
is the coordinator's state after the call. -/
def BatchContext.execute (s : BatchContext V) (store : Nat → EntityState V)
    (quoteF : String → String) (hostname : String)
    (dumps : List (String × V) → String)
    (getErrMsg : List (String × V) → Option String)
    (transport : String → Except String (List (RespEntry V))) :
    Except PyErr (ExecResult V × (Nat → EntityState V)) × BatchContext V :=
  match s.changesetIdx with
  | some _ => (.error (.exception executeSeqMsg), s)
  | none =>
    let snapshot := s.contentIdToEntityMap
    let pl := s.getPayload quoteF hostname dumps
    let s2 := s.reset
    match transport pl with
    | .error e => (.error (.transportError e), s2)
    | .ok responses =>
      let out := applyResponseToEntities responses getErrMsg store snapshot
      (.ok ({ entities := out.entities, responses := out.responseMap,
              responseRaw := responses, idToEntity := snapshot },
            out.store), s2)

/-- The `cb` closure defined inside `_insert_new` (the operation's registered
completion callback for an insert): resets dirty tracking, reassigns the
connection, marks the entity persisted, and applies the returned field
values. -/
def insertCallback (es : EntityState V)
    (savedData : Option (List (String × V))) : EntityState V :=
  let es1 := { es.reset with connectionSet := true, persisted := true }
  match savedData with
  | some d => es1.update d
  | none => es1

/-! ## Verification-side decoder for the ChangeSet wire format

The source only encodes; the round-trip property quantifies over an
arbitrary decoder-side inverse, so the decoder below is a verification
artefact, not translated from the source.  It works on raw character lists:
lines are recovered by splitting on the newline that `'\n'.join` inserted,
sections by the `--` boundary-marker lines, and the embedded request line by
splitting on spaces. -/

/-- Lines starting with the two-dash boundary marker. -/
def isMarkerLine : List Char → Bool
  | c1 :: c2 :: _ => c1 == '-' && c2 == '-'
  | _ => false

/-- Option-valued map over a list, failing if any element fails. -/
def mapOption (f : α → Option β) : List α → Option (List β)
  | [] => some []
  | x :: xs =>
    match f x with
    | none => none
    | some y => (mapOption f xs).map (y :: ·)

/-- Decodes one embedded operation section (its list of lines): three
per-operation header lines, a blank, the request line, the Host line, the
content-type line, a blank, then the JSON body lines. -/
def decodeSection (parseB : String → Option β) (unquoteF : String → String)
    (sec : List (List Char)) : Option (String × String × β) :=
  match sec with
  | _ :: _ :: _ :: [] :: req :: _ :: _ :: [] :: body =>
    match listSplitP (fun c => c == ' ') req with
    | [m, q, _httpVersion] =>
      match parseB ⟨joinSep ['\n'] body⟩ with
      | some d => some (⟨m⟩, unquoteF ⟨q⟩, d)
      | none => none
    | _ => none
  | _ => none

/-- Decodes the text produced by `ChangeSet.get_payload`: drops the
content-type header line and the following blank line, splits the remaining
lines into sections at the boundary-marker lines, and decodes each
section. -/
def decodeChangeSetPayload (parseB : String → Option β)
    (unquoteF : String → String) (payload : String) :
    Option (List (String × String × β)) :=
  match listSplitP (fun c => c == '\n') payload.data with
  | _ctLine :: _blank :: rest =>
    let secs := listSplitP isMarkerLine rest
    mapOption (decodeSection parseB unquoteF) (secs.drop 1).dropLast
  | _ => none

/-! ## Shared concrete fixtures for witnesses -/

/-- A coordinator state with one open (empty) changeset. -/
def sampleState : BatchContext Nat :=
  { boundary := "batch_b", parts := [ChangeSet.new "cs"],
    changesetIdx := some 0, contentIdToEntityMap := [], serviceUrlLen := 5 }

/-- A coordinator state with no open changeset but queued content. -/
def sampleClosedState : BatchContext Nat :=
  { boundary := "batch_b", parts := [ChangeSet.new "cs"],
    changesetIdx := none, contentIdToEntityMap := [(1, "cs-1")],
    serviceUrlLen := 5 }

/-- A not-yet-persisted entity state with one dirty field. -/
def sampleES : EntityState Nat :=
  { persisted := false, instanceUrl := none, dirty := ["Name"],
    values := [("Name", 0)], dataForInsert := [], dataForUpdate := [],
    navProps := [], connectionSet := false }

def sampleStore : Nat → EntityState Nat := fun _ => sampleES

/-! ## Claim theorems -/

theorem addAll_ids (cs : ChangeSet B) (ops : List (Op B × CallbackTag)) :
    (cs.addAll ops).2 = (List.range ops.length).map
      (fun k => contentIdStr cs.boundary (cs.changes.length + 1 + k)) := by
  induction ops generalizing cs with
  | nil => rfl
  | cons oc rest ih =>
    obtain ⟨op, cb⟩ := oc
    simp only [ChangeSet.addAll, ChangeSet.addChange, List.length_cons,
      List.range_succ_eq_map, List.map_cons, List.map_map, Nat.add_zero]
    congr 1
    rw [ih]
    simp only [List.length_append, List.length_cons, List.length_nil]
    apply List.map_congr_left
    intro k _
    simp only [Function.comp]
    congr 1
    omega

/-- C5: for every ChangeSet instance and every sequence of add_change calls
on it, the returned content identifiers are
`boundary-1, boundary-2, ...` in queuing order (sequence starting at 1,
increasing by one per queued operation), and they are pairwise distinct. -/
theorem c5_content_ids_sequential_unique (B : Type) (b : String)
    (ops : List (Op B × CallbackTag)) :
    ((ChangeSet.new b).addAll ops).2
        = (List.range ops.length).map (fun k => contentIdStr b (k + 1))
      ∧ ((ChangeSet.new b).addAll ops).2.Nodup := by
  have hids := addAll_ids (ChangeSet.new b) ops
  have hzero : (ChangeSet.new b : ChangeSet B).changes.length = 0 := rfl
  rw [hzero] at hids
  simp only [Nat.zero_add] at hids
  have hform : ((ChangeSet.new b : ChangeSet B).addAll ops).2
      = (List.range ops.length).map (fun k => contentIdStr b (k + 1)) := by
    rw [hids]
    apply List.map_congr_left
    intro k _
    congr 1
    omega
  refine ⟨hform, ?_⟩
  rw [hform]
  refine List.Nodup.map ?_ (List.nodup_range ops.length)
  intro x y hxy
  have := contentIdStr_inj b hxy
  omega

/-- C6: `execute` while a ChangeSet is open fails with the SequenceError
exception and returns the coordinator state exactly as it was (parts list,
entity-to-content-id map and open-changeset pointer untouched). -/
theorem c6_execute_open_changeset_sequence_error (V : Type)
    (s : BatchContext V) (store : Nat → EntityState V)
    (quoteF : String → String) (hostname : String)
    (dumps : List (String × V) → String)
    (getErrMsg : List (String × V) → Option String)
    (transport : String → Except String (List (RespEntry V)))
    (i : Nat) (h : s.changesetIdx = some i) :
    s.execute store quoteF hostname dumps getErrMsg transport
      = (.error (.exception executeSeqMsg), s) := by
  simp [BatchContext.execute, h]

theorem c6_execute_open_changeset_sequence_error_witness :
    sampleState.execute sampleStore (fun u => u) "h" (fun _ => "")
        (fun _ => none) (fun _ => .ok [])
      = (.error (.exception executeSeqMsg), sampleState) :=
  c6_execute_open_changeset_sequence_error Nat sampleState sampleStore
    (fun u => u) "h" (fun _ => "") (fun _ => none) (fun _ => .ok []) 0 rfl

/-- C2: for every `execute` call made with no ChangeSet open, whatever the
transport does (succeed or fail), the returned coordinator state has an
empty parts list, an empty entity-to-content-id map and no active
changeset. -/
theorem c2_execute_clears_queue_state (V : Type)
    (s : BatchContext V) (store : Nat → EntityState V)
    (quoteF : String → String) (hostname : String)
    (dumps : List (String × V) → String)
    (getErrMsg : List (String × V) → Option String)
    (transport : String → Except String (List (RespEntry V)))
    (h : s.changesetIdx = none) :
    (s.execute store quoteF hostname dumps getErrMsg transport).2.parts = []
    ∧ (s.execute store quoteF hostname dumps getErrMsg
        transport).2.contentIdToEntityMap = []
    ∧ (s.execute store quoteF hostname dumps getErrMsg
        transport).2.changesetIdx = none := by
  simp only [BatchContext.execute, h]
  cases transport (s.getPayload quoteF hostname dumps) with
  | error e => exact ⟨rfl, rfl, rfl⟩
  | ok resp => exact ⟨rfl, rfl, rfl⟩

theorem c2_execute_clears_queue_state_witness :
    (sampleClosedState.execute sampleStore (fun u => u) "h" (fun _ => "")
        (fun _ => none) (fun _ => .error "network down")).2.parts = []
    ∧ (sampleClosedState.execute sampleStore (fun u => u) "h" (fun _ => "")
        (fun _ => none) (fun _ => .error "network down")).2.contentIdToEntityMap = []
    ∧ (sampleClosedState.execute sampleStore (fun u => u) "h" (fun _ => "")
        (fun _ => none) (fun _ => .error "network down")).2.changesetIdx = none :=
  c2_execute_clears_queue_state Nat sampleClosedState sampleStore
    (fun u => u) "h" (fun _ => "") (fun _ => none)
    (fun _ => .error "network down") rfl

/-- C10: for every entity that already carries a persisted identity, `save`
with a non-null parent_resource raises the parent-resource ValueError
regardless of the changeset state (in particular with no ChangeSet open),
so SequenceError is never the error raised there. -/
theorem c10_parent_resource_check_precedes_changeset_check (V : Type)
    (s : BatchContext V) (e p : Entity V) (forceRefresh : Bool)
    (h : isEntitySaved e = true) :
    s.save e forceRefresh (some p) = .error (.valueError parentResourceMsg) := by
  simp [BatchContext.save, h]

theorem c10_parent_resource_check_precedes_changeset_check_witness :
    sampleClosedState.save
        { id := 3, schemaType := "NS.Thing", odataUrl := "/svc/Things",
          st := { sampleES with persisted := true } }
        true
        (some { id := 4, schemaType := "NS.Other", odataUrl := "/svc/Others",
                st := sampleES })
      = .error (.valueError parentResourceMsg) :=
  c10_parent_resource_check_precedes_changeset_check Nat sampleClosedState
    { id := 3, schemaType := "NS.Thing", odataUrl := "/svc/Things",
      st := { sampleES with persisted := true } }
    { id := 4, schemaType := "NS.Other", odataUrl := "/svc/Others",
      st := sampleES }
    true rfl

/-- A persisted entity with one real changed field (plus one annotation
key) in its update payload. -/
def updEntity : Entity Nat :=
  { id := 3, schemaType := "NS.Thing", odataUrl := "/svc/Things",
    st := { persisted := true, instanceUrl := some "/svc/Things(1)",
            dirty := ["Name"], values := [],
            dataForInsert := [],
            dataForUpdate := [("Name", 1), ("@odata.etag", 2)],
            navProps := [], connectionSet := false } }

/-- A persisted entity whose update payload contains only annotation keys. -/
def noopEntity : Entity Nat :=
  { id := 4, schemaType := "NS.Thing", odataUrl := "/svc/Things",
    st := { persisted := true, instanceUrl := some "/svc/Things(4)",
            dirty := [], values := [],
            dataForInsert := [],
            dataForUpdate := [("@odata.etag", 2)],
            navProps := [], connectionSet := false } }

/-- C7 (evaluating the code at the failing input): saving a persisted entity
with one changed field does queue a PATCH Operation targeting the sliced
instance URL and records the assigned content id in the map, but the call
returns `none` instead of the content id (`_update_existing` falls off the
end without a return statement, contradicting `save`'s `-> str` annotation
and the explicit `return` of `_insert_new`); the empty-diff case is a no-op
returning no content id and no error, as the claim states. -/
theorem c7_update_queues_but_returns_no_content_id :
    sampleState.save updEntity true none
      = .ok ({ sampleState with
                 parts := [((ChangeSet.new "cs").addChange
                   (.change { contentId := none,
                              data := [("Name", 1), ("@odata.etag", 2)],
                              method := ChangeAction.UPDATE,
                              url := "/Things(1)" })
                   (.updateCb 3 true)).1],
                 contentIdToEntityMap := [(3, "cs-1")] }, none)
    ∧ sampleState.save noopEntity true none = .ok (sampleState, none) := by
  exact ⟨rfl, rfl⟩

/-- The response snapshot and entries used to evaluate the correlation code
on a successful insert. -/
def insertResponses : List (RespEntry Nat) :=
  [{ id := "cid1", status := 201, atomicityGroup := "g1",
     body := [("@odata.context", 5), ("Name", 42)] }]

/-- C1 (evaluating the code at the failing input): on a unique 2xx match the
correlation code does strip the reserved-prefix annotation keys and apply
the cleaned body after a dirty-tracking reset, and reports success, but it
never invokes the operation's registered completion callback: the insert
callback would mark the entity persisted, while the code leaves `persisted`
false, so the resulting entity state differs from what the callback would
produce. -/
theorem c1_insert_success_not_marked_persisted :
    ((applyResponseToEntities insertResponses (fun _ => none) sampleStore
        [(0, "cid1")]).store 0).persisted = false
    ∧ ((applyResponseToEntities insertResponses (fun _ => none) sampleStore
        [(0, "cid1")]).store 0).values = [("Name", 42)]
    ∧ ((applyResponseToEntities insertResponses (fun _ => none) sampleStore
        [(0, "cid1")]).store 0).dirty = []
    ∧ (applyResponseToEntities insertResponses (fun _ => none) sampleStore
        [(0, "cid1")]).responseMap = [(some 0, 201, none)]
    ∧ (insertCallback sampleES
        (some (cleanSavedData [("@odata.context", 5), ("Name", 42)]))).persisted
        = true
    ∧ (applyResponseToEntities insertResponses (fun _ => none) sampleStore
        [(0, "cid1")]).store 0
      ≠ insertCallback sampleES
          (some (cleanSavedData [("@odata.context", 5), ("Name", 42)])) := by
  refine ⟨by decide, by decide, by decide, by decide, by decide, by decide⟩

/-- C8 counterexample: queueing a Function invocation with a (nonempty) set
of call parameters through `call`, with a ChangeSet open, raises TypeError
(the `FunctionChange` constructor accepts no keyword parameters), so no
invocation Operation carrying the parameters is queued — refuting the claim
for function invocations. -/
theorem c8_function_call_with_params_fails :
    sampleState.call (.function "Fn" "http://svc") [("p", 1)] .userCb
      = .error .typeError := rfl

/-- C8 (amended): with a ChangeSet open, queueing an Action invocation
queues an ActionChange Operation whose body (`kwargs`) carries exactly the
call parameters; queueing a Function invocation succeeds only with no
parameters and queues a bodiless FunctionChange Operation; queueing a
Function invocation with any parameters fails with TypeError. -/
theorem c8_call_queues_params_amended (V : Type) (s : BatchContext V)
    (i : Nat) (cs : ChangeSet (List (String × V)))
    (h1 : s.changesetIdx = some i) (h2 : s.parts[i]? = some cs) :
    (∀ name params cb, s.call (.action name) params cb
        = .ok { s with parts := (s.parts.set i
            (cs.addChange (.act { contentId := none, name := name,
                                  kwargs := params }) cb).1) })
    ∧ (∀ name serviceUrl cb, s.call (.function name serviceUrl) [] cb
        = .ok { s with parts := (s.parts.set i
            (cs.addChange (.fn { contentId := none, name := name,
                                 serviceUrl := serviceUrl }) cb).1) })
    ∧ (∀ name serviceUrl kv params cb,
        s.call (.function name serviceUrl) (kv :: params) cb
          = .error .typeError) := by
  refine ⟨?_, ?_, ?_⟩
  · intro name params cb
    simp [BatchContext.call, h1, h2]
  · intro name serviceUrl cb
    simp [BatchContext.call, h1, h2]
  · intro name serviceUrl kv params cb
    simp [BatchContext.call, h1, h2]

theorem c8_call_queues_params_amended_witness :
    sampleState.call (.action "Act") [("x", 7)] .userCb
      = .ok { sampleState with parts := (sampleState.parts.set 0
          ((ChangeSet.new "cs").addChange
            (.act { contentId := none, name := "Act",
                    kwargs := [("x", 7)] }) .userCb).1) } :=
  (c8_call_queues_params_amended Nat sampleState 0 (ChangeSet.new "cs")
    rfl rfl).1 "Act" [("x", 7)] .userCb

theorem dictMemB_dictPop (k : String) (d : List (String × V)) :
    dictMemB k (dictPop k d) = false := by
  induction d with
  | nil => rfl
  | cons kv rest ih =>
    by_cases hk : (kv.1 == k) = true
    · simpa [dictPop, hk] using ih
    · have hk2 : (kv.1 == k) = false := by
        cases h : kv.1 == k
        · rfl
        · exact absurd h hk
      simp only [dictPop, List.filter_cons, hk2, Bool.not_false, if_true]
      simp only [dictMemB, List.any_cons, hk2, Bool.false_or]
      simp only [dictPop, dictMemB] at ih
      exact ih

/-- C4: for every insert queued with a parent_resource that was itself
queued earlier in the batch (first map match carrying content id `pc.2`),
with the parent's first navigation property towards the child's type being
`pn` and the child having exactly one navigation property towards the
parent's type (`cn`), the queued CREATE Operation's URL is
`$<content-id>/<navigation-name>` and the child's scalar foreign-key field
for that navigation is absent from the serialized insert body. -/
theorem c4_parent_insert_url_and_fk_stripped (V : Type) (s : BatchContext V)
    (e p : Entity V) (i : Nat) (pn : String × NavProp)
    (pnrest : List (String × NavProp)) (pc : Nat × String)
    (pcrest : List (Nat × String)) (cn : String × NavProp)
    (h1 : s.changesetIdx = some i)
    (h2 : i < s.parts.length)
    (h3 : p.st.navProps.filter
        (fun x => x.2.navigatedPropertyType == e.schemaType) = pn :: pnrest)
    (h4 : s.contentIdToEntityMap.filter (fun x => x.1 == p.id) = pc :: pcrest)
    (h5 : e.st.navProps.filter
        (fun x => x.2.navigatedPropertyType == p.schemaType) = [cn]) :
    ∃ s2 cid, s.insertNew e (some p) = .ok (s2, cid) ∧
      ∃ cs2, s2.parts[i]? = some cs2 ∧
        ∃ c : Change (List (String × V)),
          cs2.changes.getLast? = some (.change c) ∧
          c.method = ChangeAction.CREATE ∧
          c.url = "$" ++ pc.2 ++ "/" ++ pn.2.name ∧
          (∀ fk, cn.2.foreignKey = some fk → dictMemB fk c.data = false) := by
  obtain ⟨cs, hcs⟩ : ∃ cs, s.parts[i]? = some cs :=
    ⟨s.parts[i], List.getElem?_eq_getElem h2⟩
  simp only [BatchContext.insertNew, h1, h3, h4, h5, BatchContext.finishInsert,
    hcs]
  refine ⟨_, _, rfl, ?_⟩
  refine ⟨_, List.getElem?_set_self h2, ?_⟩
  simp only [ChangeSet.addChange, List.getLast?_concat, Op.setContentId,
    Change.setContentId]
  refine ⟨_, rfl, rfl, rfl, ?_⟩
  intro fk hfk
  simp only [hfk]
  by_cases hmem : dictMemB fk e.st.dataForInsert = true
  · simp only [hmem, if_true]
    exact dictMemB_dictPop fk e.st.dataForInsert
  · have hm2 : dictMemB fk e.st.dataForInsert = false := by
      cases h : dictMemB fk e.st.dataForInsert
      · rfl
      · exact absurd h hmem
    simp [hm2]

theorem applyLoop_responseMap (responses : List (RespEntry V))
    (getErrMsg : List (String × V) → Option String)
    (store : Nat → EntityState V) (m : List (Nat × String)) :
    (applyLoop responses getErrMsg store m).responseMap
      = m.map (pairEntry responses getErrMsg) := by
  induction m generalizing store with
  | nil => rfl
  | cons pair rest ih => simp [applyLoop, ih]

theorem applyLoop_processed (responses : List (RespEntry V))
    (getErrMsg : List (String × V) → Option String)
    (store : Nat → EntityState V) (m : List (Nat × String)) :
    (applyLoop responses getErrMsg store m).processed
      = (m.filter (fun p => pairProcessed responses p)).map (·.2) := by
  induction m generalizing store with
  | nil => rfl
  | cons pair rest ih =>
    by_cases hp : pairProcessed responses pair = true
    · simp [applyLoop, ih, hp]
    · have hp2 : pairProcessed responses pair = false := by
        cases h : pairProcessed responses pair
        · rfl
        · exact absurd h hp
      simp [applyLoop, ih, hp2]

theorem pairProcessed_iff (responses : List (RespEntry V))
    (pair : Nat × String) :
    pairProcessed responses pair = true
      ↔ (responses.filter (fun x => x.id == pair.2)).length = 1 := by
  rcases h : responses.filter (fun x => x.id == pair.2) with _ | ⟨r, _ | ⟨r2, t⟩⟩
  · simp [pairProcessed, h]
  · simp [pairProcessed, h]
  · simp [pairProcessed, h]

/-- C3: for every snapshot pair, if the response list has no entry (or more
than one entry) whose id equals the content id, the entity is reported in
position with status 500 and the non-empty generic message — both in the
first-pass list and in the final response map — and its content id is not
marked as processed; if it has exactly one matching entry with a 2xx
status, the entity is reported with that entry's actual status and no
error message. -/
theorem c3_correlation_classification (V : Type)
    (responses : List (RespEntry V))
    (getErrMsg : List (String × V) → Option String)
    (store : Nat → EntityState V) (m : List (Nat × String))
    (i : Nat) (h : i < m.length) :
    ((responses.filter (fun x => x.id == m[i].2)).length ≠ 1 →
      (applyLoop responses getErrMsg store m).responseMap[i]?
          = some (some m[i].1, 500, some noResponseMsg)
        ∧ (applyResponseToEntities responses getErrMsg store m).responseMap[i]?
          = some (some m[i].1, 500, some noResponseMsg)
        ∧ noResponseMsg ≠ ""
        ∧ m[i].2 ∉ (applyLoop responses getErrMsg store m).processed)
    ∧ (∀ r, responses.filter (fun x => x.id == m[i].2) = [r] →
        200 ≤ r.status → r.status < 300 →
        (applyLoop responses getErrMsg store m).responseMap[i]?
            = some (some m[i].1, r.status, none)
          ∧ (applyResponseToEntities responses getErrMsg store m).responseMap[i]?
            = some (some m[i].1, r.status, none)) := by
  have hmap : (applyLoop responses getErrMsg store m).responseMap[i]?
      = some (pairEntry responses getErrMsg m[i]) := by
    rw [applyLoop_responseMap, List.getElem?_map,
      List.getElem?_eq_getElem h]
    rfl
  have hfull : (applyResponseToEntities responses getErrMsg
      store m).responseMap[i]?
      = (applyLoop responses getErrMsg store m).responseMap[i]? := by
    have hlen : i < (applyLoop responses getErrMsg store m).responseMap.length := by
      rw [applyLoop_responseMap, List.length_map]
      exact h
    exact List.getElem?_append_left hlen
  constructor
  · intro hne
    have hentry : pairEntry responses getErrMsg m[i]
        = (some m[i].1, 500, some noResponseMsg) := by
      unfold pairEntry
      rcases hr : responses.filter (fun x => x.id == m[i].2)
        with _ | ⟨r, _ | ⟨r2, t⟩⟩
      · rw [hr]
      · exact absurd (by rw [hr]; rfl) hne
      · rw [hr]
    refine ⟨by rw [hmap, hentry], by rw [hfull, hmap, hentry], by decide, ?_⟩
    rw [applyLoop_processed]
    intro hmem
    obtain ⟨q, hq, hq2⟩ := List.mem_map.mp hmem
    have hqf := List.mem_filter.mp hq
    have hq1 := (pairProcessed_iff responses q).mp hqf.2
    rw [hq2] at hq1
    exact hne hq1
  · intro r hr h200 h300
    have hentry : pairEntry responses getErrMsg m[i]
        = (some m[i].1, r.status, none) := by
      unfold pairEntry
      rw [hr]
      have hno : ¬(r.status < 200 ∨ 300 ≤ r.status) := by omega
      simp [hno]
    exact ⟨by rw [hmap, hentry], by rw [hfull, hmap, hentry]⟩

/-- Responses and snapshot used to exercise both classification branches:
content id "a" has no matching entry, content id "b" a successful one. -/
def c3Responses : List (RespEntry Nat) :=
  [{ id := "b", status := 204, atomicityGroup := "g", body := [] }]

theorem c3_correlation_classification_witness :
    ((applyLoop c3Responses (fun _ => none) sampleStore
        [(0, "a"), (1, "b")]).responseMap[0]?
        = some (some 0, 500, some noResponseMsg)
      ∧ (applyResponseToEntities c3Responses (fun _ => none) sampleStore
        [(0, "a"), (1, "b")]).responseMap[0]?
        = some (some 0, 500, some noResponseMsg)
      ∧ noResponseMsg ≠ ""
      ∧ "a" ∉ (applyLoop c3Responses (fun _ => none) sampleStore
        [(0, "a"), (1, "b")]).processed)
    ∧ ((applyLoop c3Responses (fun _ => none) sampleStore
        [(0, "a"), (1, "b")]).responseMap[1]?
        = some (some 1, 204, none)
      ∧ (applyResponseToEntities c3Responses (fun _ => none) sampleStore
        [(0, "a"), (1, "b")]).responseMap[1]?
        = some (some 1, 204, none)) :=
  ⟨(c3_correlation_classification Nat c3Responses (fun _ => none) sampleStore
      [(0, "a"), (1, "b")] 0 (by decide)).1 (by decide),
   (c3_correlation_classification Nat c3Responses (fun _ => none) sampleStore
      [(0, "a"), (1, "b")] 1 (by decide)).2
     { id := "b", status := 204, atomicityGroup := "g", body := [] }
     (by decide) (by decide) (by decide)⟩

/-- Parent entity fixture: an author-like entity already queued under
content id cs-1. -/
def parentEntity : Entity Nat :=
  { id := 7, schemaType := "NS.Author", odataUrl := "/svc/Authors",
    st := { persisted := false, instanceUrl := none, dirty := [],
            values := [], dataForInsert := [], dataForUpdate := [],
            navProps := [("Books",
              { name := "Books", navigatedPropertyType := "NS.Book",
                foreignKey := none })],
            connectionSet := false } }

/-- Child entity fixture: a book with a scalar foreign key to the author. -/
def childEntity : Entity Nat :=
  { id := 8, schemaType := "NS.Book", odataUrl := "/svc/Books",
    st := { persisted := false, instanceUrl := none, dirty := [],
            values := [], dataForInsert := [("Title", 1), ("AuthorId", 7)],
            dataForUpdate := [],
            navProps := [("Author",
              { name := "Author", navigatedPropertyType := "NS.Author",
                foreignKey := some "AuthorId" })],
            connectionSet := false } }

/-- Coordinator state in which the parent was already queued under cs-1. -/
def parentQueuedState : BatchContext Nat :=
  { boundary := "batch_b", parts := [ChangeSet.new "cs"],
    changesetIdx := some 0, contentIdToEntityMap := [(7, "cs-1")],
    serviceUrlLen := 5 }

theorem c4_parent_insert_url_and_fk_stripped_witness :
    ∃ s2 cid, parentQueuedState.insertNew childEntity (some parentEntity)
        = .ok (s2, cid) ∧
      ∃ cs2, s2.parts[0]? = some cs2 ∧
        ∃ c : Change (List (String × Nat)),
          cs2.changes.getLast? = some (.change c) ∧
          c.method = ChangeAction.CREATE ∧
          c.url = "$" ++ "cs-1" ++ "/" ++ "Books" ∧
          (∀ fk, (some "AuthorId" : Option String) = some fk →
            dictMemB fk c.data = false) :=
  c4_parent_insert_url_and_fk_stripped Nat parentQueuedState childEntity
    parentEntity 0
    ("Books", { name := "Books", navigatedPropertyType := "NS.Book",
                foreignKey := none }) []
    (7, "cs-1") []
    ("Author", { name := "Author", navigatedPropertyType := "NS.Author",
                 foreignKey := some "AuthorId" })
    rfl (by decide) (by decide) (by decide) (by decide)

/-! ## Round-trip lemmas for the ChangeSet wire format (C9) -/

theorem splitNl_single (s : String) (h : Char.ofNat 10 ∉ s.data) :
    listSplitP (fun ch => ch == '\n') s.data = [s.data] := by
  refine listSplitP_no_sep _ _ (fun x hx => ?_)
  have hne : x ≠ '\n' := fun heq => h (by
    have : Char.ofNat 10 = '\n' := rfl
    rw [this, ← heq]; exact hx)
  exact beq_eq_false_iff_ne.mpr hne

theorem noNl_append {a b : List Char} (ha : Char.ofNat 10 ∉ a)
    (hb : Char.ofNat 10 ∉ b) : Char.ofNat 10 ∉ a ++ b := by
  intro hmem
  rcases List.mem_append.mp hmem with h | h
  · exact ha h
  · exact hb h

/-- The list of (true) lines a single Change's embedded payload occupies in
the changeset body: eight single-line entries, then the lines of the dumped
JSON body. -/
def changeSectionLines (quoteF : String → String) (hostname : String)
    (dumps : B → String) (c : Change B) : List (List Char) :=
  [("Content-Type: application/http").data,
   ("Content-Transfer-Encoding: binary").data,
   ("Content-ID: " ++ pyStrOpt c.contentId).data,
   [],
   (c.method ++ " " ++ quoteF c.url ++ " HTTP/1.1").data,
   ("Host: " ++ hostname).data,
   ("Content-Type: application/json;type=entry").data,
   []] ++ listSplitP (fun ch => ch == '\n') (dumps c.data).data

theorem change_payload_lines (quoteF : String → String) (hostname : String)
    (dumps : B → String) (c : Change B)
    (hcid : Char.ofNat 10 ∉ (pyStrOpt c.contentId).data)
    (hurl : Char.ofNat 10 ∉ (quoteF c.url).data)
    (hmethod : Char.ofNat 10 ∉ c.method.data)
    (hhost : Char.ofNat 10 ∉ hostname.data) :
    listSplitP (fun ch => ch == '\n')
        (c.getPayload quoteF hostname dumps).data
      = changeSectionLines quoteF hostname dumps c := by
  have h1 := splitNl_single "Content-Type: application/http" (by decide)
  have h2 := splitNl_single "Content-Transfer-Encoding: binary" (by decide)
  have h3 := splitNl_single ("Content-ID: " ++ pyStrOpt c.contentId)
    (noNl_append (a := ("Content-ID: ").data) (by decide) hcid)
  have h4 := splitNl_single "" (by decide)
  have h5 := splitNl_single (c.method ++ " " ++ quoteF c.url ++ " HTTP/1.1")
    (noNl_append (noNl_append (noNl_append hmethod (by decide)) hurl)
      (b := (" HTTP/1.1").data) (by decide))
  have h6 := splitNl_single ("Host: " ++ hostname)
    (noNl_append (a := ("Host: ").data) (by decide) hhost)
  have h7 := splitNl_single "Content-Type: application/json;type=entry"
    (by decide)
  have hjoin := listSplitP_joinSep (fun ch => ch == '\n') (s := '\n') rfl
    ((c.payloadParts quoteF hostname dumps).map (·.data)) (by
      simp [Change.payloadParts])
  show listSplitP (fun ch => ch == '\n')
      (joinSep ['\n'] ((c.payloadParts quoteF hostname dumps).map (·.data)))
    = changeSectionLines quoteF hostname dumps c
  rw [hjoin]
  simp only [Change.payloadParts, List.map_cons, List.map_nil, List.map_map,
    List.flatten, changeSectionLines]
  simp only [Function.comp] at h1 h2 h3 h4 h5 h6 h7 ⊢
  rw [h1, h2, h3, h4, h5, h6, h7]
  simp

def markerLine (b : String) : List Char := ("--" ++ b).data

def endMarkerLine (b : String) : List Char := ("--" ++ b ++ "--").data

theorem isMarkerLine_markerLine (b : String) :
    isMarkerLine (markerLine b) = true := rfl

theorem isMarkerLine_endMarkerLine (b : String) :
    isMarkerLine (endMarkerLine b) = true := rfl

theorem isMarkerLine_append_space (a b : List Char)
    (h : isMarkerLine a = false) :
    isMarkerLine (a ++ ' ' :: b) = false := by
  match a with
  | [] => cases b <;> simp [isMarkerLine]
  | [x] => simp [isMarkerLine]
  | x :: y :: t => simpa [isMarkerLine] using h

/-- Splitting marker-framed sections: a marker line before each section and
a final end marker give back exactly the sections (plus the empty chunks
before the first marker and after the last). -/
theorem listSplitP_sections (p : α → Bool) (mk e : α)
    (hmk : p mk = true) (he : p e = true) (secs : List (List α))
    (hsec : ∀ sec ∈ secs, ∀ x ∈ sec, p x = false) :
    listSplitP p ((secs.map (fun s => mk :: s)).flatten ++ [e])
      = [] :: (secs ++ [[]]) := by
  induction secs with
  | nil => simp [listSplitP, he, hmk]
  | cons s ss ih =>
    have hs : ∀ x ∈ s, p x = false := hsec s (by simp)
    have hss : ∀ sec ∈ ss, ∀ x ∈ sec, p x = false :=
      fun sec hsecmem => hsec sec (by simp [hsecmem])
    have hflat : ((s :: ss).map (fun s => mk :: s)).flatten ++ [e]
        = mk :: (s ++ ((ss.map (fun s => mk :: s)).flatten ++ [e])) := by
      simp
    rw [hflat]
    have hhead : listSplitP p (mk :: (s ++ ((ss.map
        (fun s => mk :: s)).flatten ++ [e])))
        = [] :: listSplitP p (s ++ ((ss.map (fun s => mk :: s)).flatten
          ++ [e])) := by
      simp [listSplitP, hmk]
    rw [hhead]
    cases ss with
    | nil =>
      simp only [List.map_nil, List.flatten_nil, List.nil_append]
      rw [listSplitP_append_sep p he s []]
      rw [listSplitP_no_sep p s hs]
      rfl
    | cons s2 ss2 =>
      have hflat2 : ((s2 :: ss2).map (fun s => mk :: s)).flatten ++ [e]
          = mk :: (s2 ++ ((ss2.map (fun s => mk :: s)).flatten ++ [e])) := by
        simp
      have hih := ih hss
      rw [hflat2] at hih ⊢
      have hih2 : listSplitP p (s2 ++ ((ss2.map
          (fun s => mk :: s)).flatten ++ [e])) = (s2 :: ss2) ++ [[]] := by
        have : listSplitP p (mk :: (s2 ++ ((ss2.map
            (fun s => mk :: s)).flatten ++ [e])))
            = [] :: listSplitP p (s2 ++ ((ss2.map
              (fun s => mk :: s)).flatten ++ [e])) := by
          simp [listSplitP, hmk]
        rw [this] at hih
        exact (List.cons.injEq _ _ _ _).mp hih |>.2
      rw [listSplitP_append_sep p hmk s]
      rw [listSplitP_no_sep p s hs]
      have : listSplitP p (s2 ++ ((ss2.map
          (fun s => mk :: s)).flatten ++ [e])) = (s2 :: ss2) ++ [[]] := hih2
      rw [this]
      rfl

theorem splitSpace_request_line (m q : String) (h2 : List Char)
    (hm : ' ' ∉ m.data) (hq : ' ' ∉ q.data)
    (hh : ' ' ∉ h2) :
    listSplitP (fun c => c == ' ')
        (m.data ++ ' ' :: (q.data ++ ' ' :: h2))
      = [m.data, q.data, h2] := by
  have hnos : ∀ (l : List Char), ' ' ∉ l → ∀ x ∈ l, (x == ' ') = false := by
    intro l hl x hx
    exact beq_eq_false_iff_ne.mpr (fun heq => hl (heq ▸ hx))
  rw [listSplitP_append_sep _ rfl, listSplitP_append_sep _ rfl,
    listSplitP_no_sep _ _ (hnos _ hm), listSplitP_no_sep _ _ (hnos _ hq),
    listSplitP_no_sep _ _ (hnos _ hh)]
  rfl

theorem string_mk_data (s : String) : String.mk s.data = s := rfl

theorem request_line_data (m q : String) :
    (m ++ " " ++ q ++ " HTTP/1.1").data
      = m.data ++ ' ' :: (q.data ++ ' ' :: ("HTTP/1.1").data) := by
  show ((m.data ++ [' ']) ++ q.data) ++ (" HTTP/1.1").data
    = m.data ++ ' ' :: (q.data ++ ' ' :: ("HTTP/1.1").data)
  have hsp : (" HTTP/1.1").data = ' ' :: ("HTTP/1.1").data := by decide
  rw [hsp]
  simp

theorem decodeSection_encode (parseB : String → Option B)
    (unquoteF quoteF : String → String) (hostname : String)
    (dumps : B → String) (c : Change B)
    (hparse : parseB (dumps c.data) = some c.data)
    (hqsp : ' ' ∉ (quoteF c.url).data)
    (hmsp : ' ' ∉ c.method.data)
    (hunq : unquoteF (quoteF c.url) = c.url) :
    decodeSection parseB unquoteF
        (changeSectionLines quoteF hostname dumps c)
      = some (c.method, c.url, c.data) := by
  have hreq := request_line_data c.method (quoteF c.url)
  show (match listSplitP (fun ch => ch == ' ')
      ((c.method ++ " " ++ quoteF c.url ++ " HTTP/1.1").data) with
    | [m, q, _httpVersion] =>
      match parseB ⟨joinSep ['\n'] (listSplitP (fun ch => ch == '\n')
          (dumps c.data).data)⟩ with
      | some d => some (⟨m⟩, unquoteF ⟨q⟩, d)
      | none => none
    | _ => none) = some (c.method, c.url, c.data)
  rw [hreq, splitSpace_request_line c.method (quoteF c.url) ("HTTP/1.1").data
    hmsp hqsp (by decide)]
  rw [joinSep_listSplitP '\n' ((dumps c.data).data)]
  show (match parseB (dumps c.data) with
    | some d => some (⟨c.method.data⟩, unquoteF ⟨(quoteF c.url).data⟩, d)
    | none => none) = some (c.method, c.url, c.data)
  rw [hparse]
  rw [string_mk_data, string_mk_data, hunq]

theorem changeSectionLines_no_marker (quoteF : String → String)
    (hostname : String) (dumps : B → String) (c : Change B)
    (hbody : ∀ l ∈ listSplitP (fun ch => ch == '\n') (dumps c.data).data,
      isMarkerLine l = false)
    (hmethod : isMarkerLine c.method.data = false) :
    ∀ l ∈ changeSectionLines quoteF hostname dumps c,
      isMarkerLine l = false := by
  intro l hl
  simp only [changeSectionLines, List.cons_append, List.nil_append,
    List.mem_cons] at hl
  rcases hl with h | h | h | h | h | h | h | h | h
  · rw [h]; rfl
  · rw [h]; rfl
  · rw [h]
    show isMarkerLine (("Content-ID: ").data ++ (pyStrOpt c.contentId).data)
      = false
    rfl
  · rw [h]; rfl
  · rw [h]
    rw [request_line_data c.method (quoteF c.url)]
    exact isMarkerLine_append_space _ _ hmethod
  · rw [h]
    show isMarkerLine (("Host: ").data ++ hostname.data) = false
    rfl
  · rw [h]; rfl
  · rw [h]; rfl
  · exact hbody l h

theorem middle_lines (quoteF : String → String) (hostname : String)
    (dumps : B → String) (b : String) (ops : List (Change B))
    (hb : Char.ofNat 10 ∉ b.data)
    (hhost : Char.ofNat 10 ∉ hostname.data)
    (hops : ∀ c ∈ ops,
      Char.ofNat 10 ∉ (pyStrOpt c.contentId).data
      ∧ Char.ofNat 10 ∉ (quoteF c.url).data
      ∧ Char.ofNat 10 ∉ c.method.data) :
    ((ops.map (fun c => ["--" ++ b,
        (Op.change c).getPayload quoteF hostname dumps])).flatten.map
      (fun s => listSplitP (fun ch => ch == '\n') s.data)).flatten
    = ((ops.map (changeSectionLines quoteF hostname dumps)).map
        (fun s => markerLine b :: s)).flatten := by
  induction ops with
  | nil => rfl
  | cons c rest ih =>
    obtain ⟨hcid, hurl, hmethod⟩ := hops c (by simp)
    have hmk : listSplitP (fun ch => ch == '\n') ("--" ++ b).data
        = [("--" ++ b).data] :=
      splitNl_single ("--" ++ b) (noNl_append (a := ("--").data)
        (by decide) hb)
    have hpl : listSplitP (fun ch => ch == '\n')
        ((Op.change c).getPayload quoteF hostname dumps).data
        = changeSectionLines quoteF hostname dumps c :=
      change_payload_lines quoteF hostname dumps c hcid hurl hmethod hhost
    have hih := ih (fun c2 hc2 => hops c2 (by simp [hc2]))
    simp only [List.map_cons, List.flatten_cons, List.map_append,
      List.flatten_append, hih, List.map_cons, List.map_nil,
      List.flatten_cons, List.flatten_nil, hmk, hpl]
    simp [markerLine]

theorem changeset_payload_lines (quoteF : String → String)
    (hostname : String) (dumps : B → String) (b : String)
    (ops : List (Change B)) (cbs : List CallbackTag)
    (hb : Char.ofNat 10 ∉ b.data)
    (hhost : Char.ofNat 10 ∉ hostname.data)
    (hops : ∀ c ∈ ops,
      Char.ofNat 10 ∉ (pyStrOpt c.contentId).data
      ∧ Char.ofNat 10 ∉ (quoteF c.url).data
      ∧ Char.ofNat 10 ∉ c.method.data) :
    listSplitP (fun ch => ch == '\n')
        (ChangeSet.getPayload quoteF hostname dumps
          { boundary := b, changes := ops.map Op.change,
            callbacks := cbs }).data
      = ("Content-Type: multipart/mixed;boundary=" ++ b).data :: [] ::
        (((ops.map (changeSectionLines quoteF hostname dumps)).map
            (fun s => markerLine b :: s)).flatten ++ [endMarkerLine b]) := by
  have hjoin := listSplitP_joinSep (fun ch => ch == '\n') (s := '\n') rfl
    ((ChangeSet.payloadParts quoteF hostname dumps
      { boundary := b, changes := ops.map Op.change,
        callbacks := cbs }).map (·.data))
    (by simp [ChangeSet.payloadParts])
  show listSplitP (fun ch => ch == '\n')
      (joinSep ['\n'] ((ChangeSet.payloadParts quoteF hostname dumps
        { boundary := b, changes := ops.map Op.change,
          callbacks := cbs }).map (·.data)))
    = _
  rw [hjoin]
  have hct : listSplitP (fun ch => ch == '\n')
      ("Content-Type: multipart/mixed;boundary=" ++ b).data
      = [("Content-Type: multipart/mixed;boundary=" ++ b).data] :=
    splitNl_single _ (noNl_append
      (a := ("Content-Type: multipart/mixed;boundary=").data) (by decide) hb)
  have hend : listSplitP (fun ch => ch == '\n') ("--" ++ b ++ "--").data
      = [("--" ++ b ++ "--").data] :=
    splitNl_single _ (noNl_append (noNl_append (a := ("--").data)
      (by decide) hb) (b := ("--").data) (by decide))
  have hmid := middle_lines quoteF hostname dumps b ops hb hhost hops
  simp only [List.map_map, Function.comp_def] at hmid
  simp only [ChangeSet.payloadParts, List.map_append, List.map_cons,
    List.map_nil, List.map_map, Function.comp_def, List.flatten_append,
    List.flatten_cons, List.flatten_nil]
  rw [hct]
  have hempty : listSplitP (fun ch => ch == '\n') ("" : String).data
      = [[]] := rfl
  rw [hempty, hmid, hend]
  simp [endMarkerLine]

theorem decode_sections (parseB : String → Option B)
    (unquoteF quoteF : String → String) (hostname : String)
    (dumps : B → String) (ops : List (Change B))
    (hops : ∀ c ∈ ops,
      parseB (dumps c.data) = some c.data
      ∧ ' ' ∉ (quoteF c.url).data
      ∧ ' ' ∉ c.method.data
      ∧ unquoteF (quoteF c.url) = c.url) :
    mapOption (decodeSection parseB unquoteF)
        (ops.map (changeSectionLines quoteF hostname dumps))
      = some (ops.map (fun c => (c.method, c.url, c.data))) := by
  induction ops with
  | nil => rfl
  | cons c rest ih =>
    obtain ⟨hparse, hqsp, hmsp, hunq⟩ := hops c (by simp)
    have hdec := decodeSection_encode parseB unquoteF quoteF hostname dumps c
      hparse hqsp hmsp hunq
    have hih := ih (fun c2 hc2 => hops c2 (by simp [hc2]))
    simp [mapOption, hdec, hih]

/-- C9: decoding the text produced by the ChangeSet payload serialization
recovers each operation's method, URL and body in queuing order, given the
collaborator contracts: `parseB` inverts `dumps` on the queued bodies,
`unquoteF` inverts `quoteF` on the queued URLs, percent-encoded URLs and
methods contain no space or newline and no line of a dumped body or a
method starts with the two-dash boundary marker, and boundary, hostname and
content ids contain no newline. -/
theorem c9_changeset_payload_roundtrip (B : Type)
    (dumps : B → String) (parseB : String → Option B)
    (quoteF unquoteF : String → String) (hostname b : String)
    (ops : List (Change B)) (cbs : List CallbackTag)
    (hb : Char.ofNat 10 ∉ b.data)
    (hhost : Char.ofNat 10 ∉ hostname.data)
    (hops : ∀ c ∈ ops,
      parseB (dumps c.data) = some c.data
      ∧ unquoteF (quoteF c.url) = c.url
      ∧ Char.ofNat 10 ∉ (quoteF c.url).data
      ∧ ' ' ∉ (quoteF c.url).data
      ∧ Char.ofNat 10 ∉ c.method.data
      ∧ ' ' ∉ c.method.data
      ∧ isMarkerLine c.method.data = false
      ∧ Char.ofNat 10 ∉ (pyStrOpt c.contentId).data
      ∧ (∀ l ∈ listSplitP (fun ch => ch == '\n') (dumps c.data).data,
          isMarkerLine l = false)) :
    decodeChangeSetPayload parseB unquoteF
        (ChangeSet.getPayload quoteF hostname dumps
          { boundary := b, changes := ops.map Op.change, callbacks := cbs })
      = some (ops.map (fun c => (c.method, c.url, c.data))) := by
  have hlines := changeset_payload_lines quoteF hostname dumps b ops cbs hb
    hhost (fun c hc => ⟨(hops c hc).2.2.2.2.2.2.2.1, (hops c hc).2.2.1,
      (hops c hc).2.2.2.2.1⟩)
  unfold decodeChangeSetPayload
  rw [hlines]
  show mapOption (decodeSection parseB unquoteF)
      (((listSplitP isMarkerLine
        (((ops.map (changeSectionLines quoteF hostname dumps)).map
          (fun s => markerLine b :: s)).flatten
          ++ [endMarkerLine b])).drop 1).dropLast)
    = some (ops.map (fun c => (c.method, c.url, c.data)))
  rw [listSplitP_sections isMarkerLine (markerLine b) (endMarkerLine b)
    (isMarkerLine_markerLine b) (isMarkerLine_endMarkerLine b)
    (ops.map (changeSectionLines quoteF hostname dumps))
    (by
      intro sec hsec
      obtain ⟨c, hc, rfl⟩ := List.mem_map.mp hsec
      exact changeSectionLines_no_marker quoteF hostname dumps c
        (hops c hc).2.2.2.2.2.2.2.2 (hops c hc).2.2.2.2.2.2.1)]
  simp only [List.drop_succ_cons, List.drop_zero, List.dropLast_concat]
  exact decode_sections parseB unquoteF quoteF hostname dumps ops
    (fun c hc => ⟨(hops c hc).1, (hops c hc).2.2.2.1,
      (hops c hc).2.2.2.2.2.1, (hops c hc).2.1⟩)

/-- The single operation used to exercise the round trip concretely. -/
def rtChange : Change Nat :=
  { contentId := some "k-1", data := 5, method := "POST", url := "/Books" }

theorem c9_changeset_payload_roundtrip_witness :
    decodeChangeSetPayload
        (fun s => if s = "5" then some 5 else none) (fun u => u)
        (ChangeSet.getPayload (fun u => u) "host" (fun n => natRepr n)
          { boundary := "cs", changes := [rtChange].map Op.change,
            callbacks := [] })
      = some [("POST", "/Books", 5)] :=
  c9_changeset_payload_roundtrip Nat (fun n => natRepr n)
    (fun s => if s = "5" then some 5 else none) (fun u => u) (fun u => u)
    "host" "cs" [rtChange] [] (by decide) (by decide) (by decide)

end PyOData
